import Mathlib

/-!
Verification of the MSSM RGE running script (src/Yukawa_RGE.py).

The script defines physical constants, a derivative function `beta_func`
over a 10-component coupling vector `[g1, g2, g3, yt, yb, ytau, ys, yd,
ymu, ye]`, a literal initial vector `y0`, and a sequence `t` of scale
sample points handed to `odeint`.  The definitions below are a shallow
embedding of that code over the reals: Python floats are modelled as real
numbers, and the two runtime-failing statements (`beta_ys.replace(ys, yd)`
and `beta_ymu.replace(ymu, ye)`, which call `.replace` on a float) are
modelled by an `Except` error, as is tuple unpacking of a wrongly sized
list.
-/

noncomputable section

/-- The electroweak reference scale in GeV (source line 12). -/
def MZ : ℝ := 91.1876

/-- The GUT target scale in GeV (source line 13). -/
def MGUT : ℝ := 2e16

/-- Measured hypercharge coupling strength at MZ (source line 16). -/
def alpha1_MZ : ℝ := 0.016887

/-- Measured weak coupling strength at MZ (source line 17). -/
def alpha2_MZ : ℝ := 0.03378

/-- Measured strong coupling strength at MZ (source line 18). -/
def alpha3_MZ : ℝ := 0.1184

/-- `g1 = sqrt(4 pi alpha1)` (source line 20). -/
def g1_MZ : ℝ := Real.sqrt (4 * Real.pi * alpha1_MZ)

/-- `g2 = sqrt(4 pi alpha2)` (source line 21). -/
def g2_MZ : ℝ := Real.sqrt (4 * Real.pi * alpha2_MZ)

/-- `g3 = sqrt(4 pi alpha3)` (source line 22). -/
def g3_MZ : ℝ := Real.sqrt (4 * Real.pi * alpha3_MZ)

/-- Top Yukawa at MZ (source line 25). -/
def yt_MZ : ℝ := 0.99

/-- Bottom Yukawa at MZ (source line 26). -/
def yb_MZ : ℝ := 0.016

/-- Tau Yukawa at MZ (source line 27). -/
def ytau_MZ : ℝ := 0.01

/-- The 10 unpacked components of the coupling vector, in the order of
`g1, g2, g3, yt, yb, ytau, ys, yd, ymu, ye = y` (source line 35). -/
structure Couplings where
  g1 : ℝ
  g2 : ℝ
  g3 : ℝ
  yt : ℝ
  yb : ℝ
  ytau : ℝ
  ys : ℝ
  yd : ℝ
  ymu : ℝ
  ye : ℝ

/-- Up-sector trace `trYu2 = yt**2` (source line 38). -/
def trYu2 (c : Couplings) : ℝ := c.yt ^ 2

/-- Down-sector trace `trYd2 = yb**2 + ys**2 + yd**2` (source line 39). -/
def trYd2 (c : Couplings) : ℝ := c.yb ^ 2 + c.ys ^ 2 + c.yd ^ 2

/-- Lepton-sector trace `trYe2 = ytau**2 + ymu**2 + ye**2` (source line 40). -/
def trYe2 (c : Couplings) : ℝ := c.ytau ^ 2 + c.ymu ^ 2 + c.ye ^ 2

/-- One-loop coefficient `b1 = 33.0/5` (source line 45). -/
def b1 : ℝ := 33.0 / 5

/-- One-loop coefficient `b2 = 1.0` (source line 46). -/
def b2 : ℝ := 1.0

/-- One-loop coefficient `b3 = 3.0` (source line 47). -/
def b3 : ℝ := 3.0

/-- The fixed 3x3 two-loop gauge mixing matrix `B` (source lines 49-53). -/
def B : Fin 3 → Fin 3 → ℝ :=
  ![![199.0 / 25, 27.0 / 5, 88.0 / 5],
    ![9.0 / 5, 25.0, 24.0],
    ![11.0 / 5, 9.0, 14.0]]

/-- Yukawa contribution to the `g1` two-loop term (source line 56). -/
def y_contrib1 (c : Couplings) : ℝ :=
  (17.0 / 5) * trYu2 c + (3.0 / 5) * trYd2 c + (3.0 / 5) * trYe2 c

/-- Yukawa contribution to the `g2` two-loop term (source line 57). -/
def y_contrib2 (c : Couplings) : ℝ :=
  3 * trYu2 c + 3 * trYd2 c + trYe2 c

/-- Yukawa contribution to the `g3` two-loop term (source line 58). -/
def y_contrib3 (c : Couplings) : ℝ :=
  2 * trYu2 c + 2 * trYd2 c

/-- `beta_g1` exactly as source line 61: one-loop part, two-loop gauge sum
with `B[0,0], B[0,1], B[0,2]`, minus the Yukawa contribution. -/
def beta_g1 (c : Couplings) : ℝ :=
  c.g1 ^ 3 / (16 * Real.pi ^ 2) * b1
    + c.g1 ^ 3 / (16 * Real.pi ^ 2) ^ 2
      * (B 0 0 * c.g1 ^ 2 + B 0 1 * c.g2 ^ 2 + B 0 2 * c.g3 ^ 2)
    - c.g1 ^ 3 / (16 * Real.pi ^ 2) ^ 2 * y_contrib1 c

/-- `beta_g2` exactly as source line 63.  Note the source multiplies `g3**2`
by `B[1,1]` (not `B[1,2]`): this definition reproduces that literally. -/
def beta_g2 (c : Couplings) : ℝ :=
  c.g2 ^ 3 / (16 * Real.pi ^ 2) * b2
    + c.g2 ^ 3 / (16 * Real.pi ^ 2) ^ 2
      * (B 1 0 * c.g1 ^ 2 + B 1 1 * c.g2 ^ 2 + B 1 1 * c.g3 ^ 2)
    - c.g2 ^ 3 / (16 * Real.pi ^ 2) ^ 2 * y_contrib2 c

/-- `beta_g3` exactly as source line 65. -/
def beta_g3 (c : Couplings) : ℝ :=
  c.g3 ^ 3 / (16 * Real.pi ^ 2) * b3
    + c.g3 ^ 3 / (16 * Real.pi ^ 2) ^ 2
      * (B 2 0 * c.g1 ^ 2 + B 2 1 * c.g2 ^ 2 + B 2 2 * c.g3 ^ 2)
    - c.g3 ^ 3 / (16 * Real.pi ^ 2) ^ 2 * y_contrib3 c

/-- `beta_yt` (source line 69). -/
def beta_yt (c : Couplings) : ℝ :=
  (1 / (16 * Real.pi ^ 2)) * c.yt
    * (6 * c.yt ^ 2 + c.yb ^ 2 + 3 * trYu2 c + trYd2 c
      - (16 / 3 * c.g3 ^ 2 + 3 * c.g2 ^ 2 + 13 / 15 * c.g1 ^ 2))

/-- `beta_yb` (source line 72). -/
def beta_yb (c : Couplings) : ℝ :=
  (1 / (16 * Real.pi ^ 2)) * c.yb
    * (6 * c.yb ^ 2 + c.yt ^ 2 + trYe2 c + 3 * trYd2 c
      - (16 / 3 * c.g3 ^ 2 + 3 * c.g2 ^ 2 + 1 / 15 * c.g1 ^ 2))

/-- `beta_ytau` (source line 75). -/
def beta_ytau (c : Couplings) : ℝ :=
  (1 / (16 * Real.pi ^ 2)) * c.ytau
    * (4 * c.ytau ^ 2 + trYe2 c + 3 * trYd2 c
      - (3 * c.g2 ^ 2 + 9 / 5 * c.g1 ^ 2))

/-- `beta_ys` (source line 78): the down-sector trace and gauge terms with no
self term (the source comment reads "neglect self y^3") and no `yt**2` term. -/
def beta_ys (c : Couplings) : ℝ :=
  (1 / (16 * Real.pi ^ 2)) * c.ys
    * (trYe2 c + 3 * trYd2 c
      - (16 / 3 * c.g3 ^ 2 + 3 * c.g2 ^ 2 + 1 / 15 * c.g1 ^ 2))

/-- `beta_ymu` (source line 84): lepton-sector trace and gauge terms with no
self term. -/
def beta_ymu (c : Couplings) : ℝ :=
  (1 / (16 * Real.pi ^ 2)) * c.ymu
    * (trYe2 c + 3 * trYd2 c
      - (3 * c.g2 ^ 2 + 9 / 5 * c.g1 ^ 2))

/-- A Python exception raised while evaluating the embedded code. -/
inductive PyErr where
  | attributeError : PyErr
  | valueError : PyErr
deriving DecidableEq, Repr

/-- `x.replace(old, new)` where `x` is a float (source lines 81 and 87):
a Python float has no `replace` attribute, so the call raises
`AttributeError` whatever the arguments are. -/
def floatReplace (x old new : ℝ) : Except PyErr ℝ :=
  Except.error PyErr.attributeError

/-- `beta_func(y, t)` (source lines 32-89).  The 10-element unpacking of
line 35 raises `ValueError` on any other length; lines 38-78 and 84 compute
the pure expressions above; line 81 (`beta_yd = beta_ys.replace(ys, yd)`)
and line 87 (`beta_ye = beta_ymu.replace(ymu, ye)`) call `.replace` on a
float, so in source order line 81 raises before the return of line 89 is
reached.  The scale argument is unused, as in the source. -/
def beta_func (y : List ℝ) (tv : ℝ) : Except PyErr (List ℝ) :=
  match y with
  | [g1v, g2v, g3v, ytv, ybv, ytauv, ysv, ydv, ymuv, yev] =>
    let c : Couplings := ⟨g1v, g2v, g3v, ytv, ybv, ytauv, ysv, ydv, ymuv, yev⟩
    do
      let beta_yd_val ← floatReplace (beta_ys c) c.ys c.yd
      let beta_ye_val ← floatReplace (beta_ymu c) c.ymu c.ye
      pure [beta_g1 c, beta_g2 c, beta_g3 c, beta_yt c, beta_yb c,
        beta_ytau c, beta_ys c, beta_yd_val, beta_ymu c, beta_ye_val]
  | _ => Except.error PyErr.valueError

/-- The literal initial vector `y0` at MZ (source line 92). -/
def y0 : List ℝ :=
  [g1_MZ, g2_MZ, g3_MZ, yt_MZ, yb_MZ, ytau_MZ, 0.003, 0.0001, 0.06, 0.0005]

/-- The scale sample points `t = np.logspace(0, np.log(MGUT / MZ), 1000)`
(source line 95): `numpy.logspace(start, stop, num)` returns
`10 ** linspace(start, stop, num)`, so the k-th point is
`10 ^ (k * ln(MGUT/MZ) / 999)`. -/
def t (k : Fin 1000) : ℝ :=
  (10 : ℝ) ^ ((k.val : ℝ) * Real.log (MGUT / MZ) / 999)

end

noncomputable section

/-! ## Claim C1: the two-loop mixing term of `beta_g2` -/

/-- The gauge beta for `g2` as claim C1 states it: the two-loop sum is
`Σ_j B_1j g_j²`, so `B 1 2` multiplies `g3²`.  Written from the claim's
formula, for comparison with the source's `beta_g2`. -/
def beta_g2_claimed (c : Couplings) : ℝ :=
  c.g2 ^ 3 / (16 * Real.pi ^ 2) * b2
    + c.g2 ^ 3 / (16 * Real.pi ^ 2) ^ 2
      * (B 1 0 * c.g1 ^ 2 + B 1 1 * c.g2 ^ 2 + B 1 2 * c.g3 ^ 2)
    - c.g2 ^ 3 / (16 * Real.pi ^ 2) ^ 2 * y_contrib2 c

/-- Concrete coupling vector with `g1 = 0`, `g2 = g3 = 1`, all Yukawas 0. -/
def cB : Couplings := ⟨0, 1, 1, 0, 0, 0, 0, 0, 0, 0⟩

end

/-- C1: at `g1 = 0, g2 = g3 = 1` and zero Yukawas, the source's `beta_g2`
(source line 63 multiplies `g3**2` by `B[1,1] = 25`) exceeds the claim's
formula (`B[1,2] = 24` on `g3²`) by exactly `1/(16π²)²`; in particular the
code does not compute the claimed two-loop sum for `i = 2`. -/
theorem beta_g2_twoloop_misindexed :
    beta_g2 cB - beta_g2_claimed cB = 1 / (16 * Real.pi ^ 2) ^ 2 ∧
    beta_g2 cB ≠ beta_g2_claimed cB := by
  have h : beta_g2 cB - beta_g2_claimed cB = 1 / (16 * Real.pi ^ 2) ^ 2 := by
    rw [beta_g2, beta_g2_claimed]
    norm_num [cB, B, b2, y_contrib2, trYu2, trYd2, trYe2]
    ring
  refine ⟨h, fun he => ?_⟩
  rw [he, sub_self] at h
  have hpos : (0 : ℝ) < 1 / (16 * Real.pi ^ 2) ^ 2 := by positivity
  exact hpos.ne h

/-- C2: `beta_func` never returns a value: for every input list and scale it
evaluates to an exception — `AttributeError` from the `.replace` call on a
float (source line 81) when the list has the 10 components line 35 unpacks,
and `ValueError` from the unpacking itself otherwise. -/
theorem beta_func_never_returns (y : List ℝ) (tv : ℝ) :
    ∃ e : PyErr, beta_func y tv = Except.error e := by
  unfold beta_func
  split
  · exact ⟨PyErr.attributeError, rfl⟩
  · exact ⟨PyErr.valueError, rfl⟩

noncomputable section

/-! ## Claim C3: light-generation Yukawa formulas -/

/-- Claim C3's down-sector light formula: `beta_yb`'s right-hand side with
the light coupling `ys` substituted as the self-coupling.  Written from the
claim, for comparison with the source's `beta_ys`. -/
def beta_ys_claimed (c : Couplings) : ℝ :=
  (1 / (16 * Real.pi ^ 2)) * c.ys
    * (6 * c.ys ^ 2 + c.yt ^ 2 + trYe2 c + 3 * trYd2 c
      - (16 / 3 * c.g3 ^ 2 + 3 * c.g2 ^ 2 + 1 / 15 * c.g1 ^ 2))

/-- Claim C3's lepton-sector light formula: `beta_ytau`'s right-hand side
with `ymu` substituted as the self-coupling. -/
def beta_ymu_claimed (c : Couplings) : ℝ :=
  (1 / (16 * Real.pi ^ 2)) * c.ymu
    * (4 * c.ymu ^ 2 + trYe2 c + 3 * trYd2 c
      - (3 * c.g2 ^ 2 + 9 / 5 * c.g1 ^ 2))

/-- Concrete coupling vector with `yt = 1`, `ys = 1`, all else 0. -/
def cL : Couplings := ⟨0, 0, 0, 1, 0, 0, 1, 0, 0, 0⟩

end

/-- C3 counterexample: at `yt = 1, ys = 1` (all else 0) the source's
`beta_ys` gives `3/(16π²)` while the third-generation down-sector formula
with `ys` as the self-coupling gives `10/(16π²)`: the code drops the `6·ys²`
self term and the `yt²` cross term, so the claim fails as stated. -/
theorem light_yukawa_not_substituted : beta_ys cL ≠ beta_ys_claimed cL := by
  have h3 : beta_ys cL = 3 * (1 / (16 * Real.pi ^ 2)) := by
    rw [beta_ys]
    norm_num [cL, trYe2, trYd2]
    ring
  have h10 : beta_ys_claimed cL = 10 * (1 / (16 * Real.pi ^ 2)) := by
    rw [beta_ys_claimed]
    norm_num [cL, trYe2, trYd2]
    ring
  rw [h3, h10]
  intro he
  have hne : (1 : ℝ) / (16 * Real.pi ^ 2) ≠ 0 := by positivity
  have : (3 : ℝ) = 10 := mul_right_cancel₀ hne he
  norm_num at this

/-- C3 (amended): `beta_ys` is the substituted down-sector formula minus the
dropped `6·ys² + yt²` terms, `beta_ymu` is the substituted lepton formula
minus the dropped `4·ymu²` self term, and `beta_yd`, `beta_ye` are not
re-evaluations of any formula: the source computes them by calling
`.replace` on the already-evaluated floats `beta_ys`, `beta_ymu`, which
raises `AttributeError`. -/
theorem light_yukawa_amended (c : Couplings) :
    beta_ys c = beta_ys_claimed c
      - (1 / (16 * Real.pi ^ 2)) * c.ys * (6 * c.ys ^ 2 + c.yt ^ 2) ∧
    beta_ymu c = beta_ymu_claimed c
      - (1 / (16 * Real.pi ^ 2)) * c.ymu * (4 * c.ymu ^ 2) ∧
    floatReplace (beta_ys c) c.ys c.yd = Except.error PyErr.attributeError ∧
    floatReplace (beta_ymu c) c.ymu c.ye = Except.error PyErr.attributeError := by
  refine ⟨?_, ?_, rfl, rfl⟩
  · rw [beta_ys, beta_ys_claimed]
    ring
  · rw [beta_ymu, beta_ymu_claimed]
    ring

/-! ## Claim C4: the scale sample points -/

/-- C4 counterexample: the first sample point handed to the integrator is
`10^0 = 1`, not the reference scale's log-offset `0`. -/
theorem t_first_sample_is_one_not_zero : t 0 = 1 ∧ t 0 ≠ 0 := by
  constructor
  · simp [t]
  · simp [t]

/-- C4 (amended): the sample sequence is strictly increasing, but
`np.logspace` exponentiates the intended log-offsets: the first sample is
`10^0 = 1` (not `0`) and the last is `10^(ln(MGUT/MZ))` (not
`ln(MGUT/MZ) = ln(2e16/91.1876)`). -/
theorem t_samples_monotone_double_log :
    StrictMono t ∧ t 0 = 1 ∧
    t (Fin.last 999) = (10 : ℝ) ^ Real.log (MGUT / MZ) := by
  refine ⟨?_, by simp [t], ?_⟩
  · intro a b hab
    have hL : 0 < Real.log (MGUT / MZ) := by
      apply Real.log_pos
      rw [MGUT, MZ, lt_div_iff₀ (by norm_num)]
      norm_num
    rw [t, t]
    apply (Real.rpow_lt_rpow_left_iff (by norm_num : (1 : ℝ) < 10)).mpr
    have hv : (a.val : ℝ) < (b.val : ℝ) := by exact_mod_cast hab
    gcongr
  · rw [t]
    norm_num [Fin.last]

/-! ## Claim C5: validation of the initial vector -/

/-- Source lines 92-98: the literal `y0` is built and passed directly to
`odeint(beta_func, y0, t)`.  No test of the vector's length or of the sign
of any entry stands between the construction of the initial vector and the
integrator call, so the validation step the program applies to a candidate
initial vector is the identity: every vector is accepted. -/
def initial_validation (y : List ℝ) : Except PyErr (List ℝ) := Except.ok y

/-- C5 counterexample: the malformed vector `[-1]` (length 1, negative
first entry) is not rejected before integration — the program's
(non-existent) validation accepts it, and in particular reports no
invalid-initial-state error for it. -/
theorem invalid_initial_not_rejected :
    initial_validation [(-1 : ℝ)] = Except.ok [(-1 : ℝ)] ∧
    ∀ e : PyErr, initial_validation [(-1 : ℝ)] ≠ Except.error e := by
  exact ⟨rfl, fun e he => by simp [initial_validation] at he⟩

/-- C5 (amended): the program performs no pre-integration validation at all —
every candidate initial vector, however malformed, is handed to the
integrator unchanged; a wrong length only surfaces later, as a `ValueError`
raised inside `beta_func` when the integrator first evaluates it, and a
negative gauge coupling is never flagged. -/
theorem no_initial_validation :
    (∀ y : List ℝ, initial_validation y = Except.ok y) ∧
    (∀ tv : ℝ, beta_func [(-1 : ℝ)] tv = Except.error PyErr.valueError) :=
  ⟨fun _ => rfl, fun _ => rfl⟩

noncomputable section

/-! ## Claim C6: the zero-Yukawa sanity case -/

/-- The pure gauge part of `beta_g1`: the first two addends of source
line 61 (one-loop term and two-loop gauge mixing sum), without the Yukawa
subtraction. -/
def gauge_part1 (c : Couplings) : ℝ :=
  c.g1 ^ 3 / (16 * Real.pi ^ 2) * b1
    + c.g1 ^ 3 / (16 * Real.pi ^ 2) ^ 2
      * (B 0 0 * c.g1 ^ 2 + B 0 1 * c.g2 ^ 2 + B 0 2 * c.g3 ^ 2)

/-- The pure gauge part of `beta_g2`: the first two addends of source
line 63, with the source's own `B[1,1]` coefficient on `g3**2`. -/
def gauge_part2 (c : Couplings) : ℝ :=
  c.g2 ^ 3 / (16 * Real.pi ^ 2) * b2
    + c.g2 ^ 3 / (16 * Real.pi ^ 2) ^ 2
      * (B 1 0 * c.g1 ^ 2 + B 1 1 * c.g2 ^ 2 + B 1 1 * c.g3 ^ 2)

/-- The pure gauge part of `beta_g3`: the first two addends of source
line 65. -/
def gauge_part3 (c : Couplings) : ℝ :=
  c.g3 ^ 3 / (16 * Real.pi ^ 2) * b3
    + c.g3 ^ 3 / (16 * Real.pi ^ 2) ^ 2
      * (B 2 0 * c.g1 ^ 2 + B 2 1 * c.g2 ^ 2 + B 2 2 * c.g3 ^ 2)

/-- Concrete vector with `g1 = g2 = g3 = 1` and all seven Yukawas 0. -/
def cW : Couplings := ⟨1, 1, 1, 0, 0, 0, 0, 0, 0, 0⟩

end

/-- C6: if all Yukawa entries are exactly 0, the three trace invariants are
exactly 0, the three two-loop Yukawa-subtraction terms are exactly 0, and
each gauge derivative equals its pure gauge part alone. -/
theorem zero_yukawa_gauge_pure (c : Couplings)
    (hyt : c.yt = 0) (hyb : c.yb = 0) (hytau : c.ytau = 0) (hys : c.ys = 0)
    (hyd : c.yd = 0) (hymu : c.ymu = 0) (hye : c.ye = 0) :
    trYu2 c = 0 ∧ trYd2 c = 0 ∧ trYe2 c = 0 ∧
    y_contrib1 c = 0 ∧ y_contrib2 c = 0 ∧ y_contrib3 c = 0 ∧
    beta_g1 c = gauge_part1 c ∧ beta_g2 c = gauge_part2 c ∧
    beta_g3 c = gauge_part3 c := by
  have h1 : trYu2 c = 0 := by rw [trYu2, hyt]; ring
  have h2 : trYd2 c = 0 := by rw [trYd2, hyb, hys, hyd]; ring
  have h3 : trYe2 c = 0 := by rw [trYe2, hytau, hymu, hye]; ring
  have h4 : y_contrib1 c = 0 := by rw [y_contrib1, h1, h2, h3]; ring
  have h5 : y_contrib2 c = 0 := by rw [y_contrib2, h1, h2, h3]; ring
  have h6 : y_contrib3 c = 0 := by rw [y_contrib3, h1, h2]; ring
  refine ⟨h1, h2, h3, h4, h5, h6, ?_, ?_, ?_⟩
  · rw [beta_g1, gauge_part1, h4]; ring
  · rw [beta_g2, gauge_part2, h5]; ring
  · rw [beta_g3, gauge_part3, h6]; ring

/-- C6 witness: the zero-Yukawa conclusion evaluated at the concrete vector
`g1 = g2 = g3 = 1`, all Yukawas 0. -/
theorem zero_yukawa_gauge_pure_witness :
    trYu2 cW = 0 ∧ trYd2 cW = 0 ∧ trYe2 cW = 0 ∧
    y_contrib1 cW = 0 ∧ y_contrib2 cW = 0 ∧ y_contrib3 cW = 0 ∧
    beta_g1 cW = gauge_part1 cW ∧ beta_g2 cW = gauge_part2 cW ∧
    beta_g3 cW = gauge_part3 cW :=
  zero_yukawa_gauge_pure cW rfl rfl rfl rfl rfl rfl rfl

/-- C7: the measured-strength-to-coupling conversion is exactly
`g = sqrt(4π·α)` and round-trips: `g²/(4π)` recovers `α` for every
nonnegative `α`, and in particular for the three measured constants
`alpha1_MZ`, `alpha2_MZ`, `alpha3_MZ` of the source. -/
theorem alpha_g_roundtrip :
    (∀ a : ℝ, 0 ≤ a → Real.sqrt (4 * Real.pi * a) ^ 2 / (4 * Real.pi) = a) ∧
    g1_MZ ^ 2 / (4 * Real.pi) = alpha1_MZ ∧
    g2_MZ ^ 2 / (4 * Real.pi) = alpha2_MZ ∧
    g3_MZ ^ 2 / (4 * Real.pi) = alpha3_MZ := by
  have key : ∀ a : ℝ, 0 ≤ a →
      Real.sqrt (4 * Real.pi * a) ^ 2 / (4 * Real.pi) = a := by
    intro a ha
    rw [Real.sq_sqrt (mul_nonneg (by positivity) ha)]
    field_simp
  refine ⟨key, ?_, ?_, ?_⟩
  · rw [g1_MZ]; exact key _ (by rw [alpha1_MZ]; norm_num)
  · rw [g2_MZ]; exact key _ (by rw [alpha2_MZ]; norm_num)
  · rw [g3_MZ]; exact key _ (by rw [alpha3_MZ]; norm_num)

/-- C8: the initial vector does have exactly 10 components, but `beta_func`
never returns a 10-component derivative vector: already on the program's own
`y0` it evaluates to `AttributeError` (raised at source line 81, before the
10-element return of line 89 is reached). -/
theorem y0_ten_components_but_no_return :
    y0.length = 10 ∧ beta_func y0 0 = Except.error PyErr.attributeError :=
  ⟨rfl, rfl⟩

/-- C9: the trace invariants are invariant under swapping Yukawa inputs
within a sector: exchanging the `ys` and `yd` slots of the vector leaves
`trYd2` unchanged, and exchanging `ymu` and `ye` leaves `trYe2`
unchanged. -/
theorem trace_swap_invariant (c : Couplings) :
    trYd2 ⟨c.g1, c.g2, c.g3, c.yt, c.yb, c.ytau, c.yd, c.ys, c.ymu, c.ye⟩
      = trYd2 c ∧
    trYe2 ⟨c.g1, c.g2, c.g3, c.yt, c.yb, c.ytau, c.ys, c.yd, c.ye, c.ymu⟩
      = trYe2 c := by
  constructor
  · simp only [trYd2]; ring
  · simp only [trYe2]; ring

/-- C10: each of the five Yukawa derivatives the source computes as a
formula (`beta_yt`, `beta_yb`, `beta_ytau`, `beta_ys`, `beta_ymu`) is its
own coupling times a factor, so a coupling that is exactly 0 has derivative
exactly 0. -/
theorem yukawa_zero_fixed (c : Couplings) :
    (c.yt = 0 → beta_yt c = 0) ∧ (c.yb = 0 → beta_yb c = 0) ∧
    (c.ytau = 0 → beta_ytau c = 0) ∧ (c.ys = 0 → beta_ys c = 0) ∧
    (c.ymu = 0 → beta_ymu c = 0) := by
  refine ⟨fun h => ?_, fun h => ?_, fun h => ?_, fun h => ?_, fun h => ?_⟩
  · rw [beta_yt, h]; ring
  · rw [beta_yb, h]; ring
  · rw [beta_ytau, h]; ring
  · rw [beta_ys, h]; ring
  · rw [beta_ymu, h]; ring
